import Mathlib

/-!
Verification of `trickkiste/base_tui_app.py`: a shallow embedding of the
log-handler adapter (`RichLogHandler`), the auto-scroll scrollback wrapper
(`LockingRichLog`) and the application shell (`TuiBaseApp`), with theorems
about the format-string assembly, the record escaping, the filter chain,
the handler installation and the run/cleanup lifecycle.
-/

namespace Trickkiste

/-! ## Data model -/

/-- A positional argument of a log record: Python values are either `str`
instances or something else (`isinstance(arg, str)` distinguishes them in
`RichLogHandler.emit`). Non-string values are modelled by an opaque integer
payload. -/
inductive Arg where
  | str (s : String)
  | other (v : Int)
deriving DecidableEq, Repr

/-- A `logging.LogRecord` with the attributes `base_tui_app.py` reads or
writes: severity number, logger name, message, optional positional `args`,
`funcName`, the filter-injected `callstack` and `posixTID`, and the
formatted time `asctime`. -/
structure LogRecord where
  name : String
  levelno : Nat
  msg : String
  args : Option (List Arg)
  funcName : String
  callstack : String
  posixTID : Nat
  asctime : String
deriving DecidableEq, Repr

/-- The boolean display toggles fixed in `TuiBaseApp.__init__`
(`logger_show_level` is stored there as well but never read by `on_mount`,
so it is not part of the format assembly). -/
structure Toggles where
  logger_show_time : Bool
  logger_show_name : Bool
  logger_show_callstack : Bool
  logger_show_funcname : Bool
  logger_show_tid : Bool
deriving DecidableEq, Repr

/-! ## Markup escaping (`rich.markup.escape`) -/

/-- Modelled from the spec: `rich.markup.escape` is third-party code
(imported as `markup_escape`); per the spec it "escapes any
markup-significant characters in the message … to prevent the styling
markup language from misinterpreting user-supplied text as formatting
directives". A style directive opens with `[`, so the model prefixes every
opening bracket with a backslash. -/
def escChars : List Char → List Char
  | [] => []
  | c :: rest => if c = '[' then '\\' :: '[' :: escChars rest else c :: escChars rest

/-- String wrapper for `escChars`; the model of `rich.markup.escape`. -/
def markup_escape (s : String) : String :=
  String.mk (escChars s.data)

/-- Scanner for `noBareBracket`; the flag records whether the previous
character was a backslash. -/
def noBareBracketAux (prevBS : Bool) : List Char → Bool
  | [] => true
  | c :: rest =>
    if c = '[' then prevBS && noBareBracketAux false rest
    else noBareBracketAux (c = '\\') rest

/-- `noBareBracket l` holds when every `[` in `l` is immediately preceded by
the escaping backslash, i.e. no bracket can open a styling directive. -/
def noBareBracket (l : List Char) : Bool :=
  noBareBracketAux false l

/-! ## `RichLogHandler.emit` record transformation -/

/-- One element of `tuple(markup_escape(arg) if isinstance(arg, str) else arg
for arg in record.args)`. -/
def escapeArg : Arg → Arg
  | .str s => .str (markup_escape s)
  | .other v => .other v

/-- `record.args = record.args and tuple(…)`: Python `and` returns the left
operand unchanged when it is falsy (`None` or the empty tuple), otherwise
the escaped tuple. -/
def escapeArgs : Option (List Arg) → Option (List Arg)
  | none => none
  | some [] => some []
  | some args => some (args.map escapeArg)

/-- The in-place mutation `RichLogHandler.emit` performs on the record
before rendering: `record.args = record.args and tuple(…)` and
`record.msg = markup_escape(record.msg)`. -/
def emitTransform (r : LogRecord) : LogRecord :=
  { r with args := escapeArgs r.args, msg := markup_escape r.msg }

/-! ## Handler state and `on_mount` -/

/-- The four record filters attached in `TuiBaseApp.on_mount`; the filter
functions live in `trickkiste.logging_helper`. -/
inductive FilterId where
  | callstack_filter
  | thread_id_filter
  | markup_escape_filter
  | logger_name_filter
deriving DecidableEq, Repr

/-- A `logging.Handler` as far as `base_tui_app.py` manipulates it: the
target widget (the `RichLog` the `RichLogHandler` writes to), the handler
level, the ordered filter list and the formatter string. -/
structure Handler where
  widget : Nat
  level : Nat
  filters : List FilterId
  fmt : Option String
deriving DecidableEq, Repr

/-- `logging.INFO`. -/
def INFO : Nat := 20

/-- The id of `self._richlog` (`LockingRichLog(id="app_log")`). -/
def appLogWidget : Nat := 0

/-- `RichLogHandler.__init__(widget, level=logging.INFO)`: a fresh handler
targeting `widget`, with no filters and no formatter yet (the default
`level` argument `logging.INFO` is passed explicitly at the call site). -/
def RichLogHandler.init (widget : Nat) (level : Nat) : Handler :=
  ⟨widget, level, [], none⟩

/-- `logging.Handler.addFilter`: appends to the filter list. -/
def addFilter (h : Handler) (f : FilterId) : Handler :=
  { h with filters := h.filters ++ [f] }

/-- `logging.Handler.setFormatter`. -/
def setFormatter (h : Handler) (fmt : String) : Handler :=
  { h with fmt := some fmt }

/-- The root logger as far as `on_mount` touches it: its handler list. -/
structure RootLogger where
  handlers : List Handler
deriving DecidableEq, Repr

/-- The handler built by `TuiBaseApp.on_mount`, mirroring the statement
order of the source: construct `RichLogHandler(self._richlog)`, compute the
`opt_*` fragments, conditionally attach `callstack_filter` and
`thread_id_filter`, always attach `markup_escape_filter` and
`logger_name_filter`, then set the formatter string
`"│ %(asctime)s" f"…" "│ [bold white]%(message)s[/]"`. -/
def mountedHandler (t : Toggles) : Handler :=
  let handler := RichLogHandler.init appLogWidget INFO
  let opt_time := if t.logger_show_time then "│ %(asctime)s " else ""
  let opt_name := if t.logger_show_name then "│ [grey53]%(name)-16s[/] " else ""
  let opt_funcname := if t.logger_show_funcname then "│ [grey53]%(funcName)-32s[/] " else ""
  let opt_callstack := if t.logger_show_callstack then "│ [grey53]%(callstack)-32s[/] " else ""
  let handler := if t.logger_show_callstack then addFilter handler .callstack_filter else handler
  let opt_tid := if t.logger_show_tid then "│ [grey53]%(posixTID)-8s[/] " else ""
  let handler := if t.logger_show_tid then addFilter handler .thread_id_filter else handler
  let handler := addFilter handler .markup_escape_filter
  let handler := addFilter handler .logger_name_filter
  setFormatter handler
    ("│ %(asctime)s" ++ opt_time ++ opt_tid ++ opt_name ++ opt_funcname ++ opt_callstack
      ++ "│ [bold white]%(message)s[/]")

/-- `logging.getLogger().handlers = [handler := RichLogHandler(self._richlog)]`
followed by the handler configuration: the root logger's handler list is
replaced outright by the single mounted handler. -/
def on_mount (t : Toggles) (root : RootLogger) : RootLogger :=
  let _ := root.handlers
  ⟨[mountedHandler t]⟩

/-- The format string assembled by `on_mount`. -/
def formatString (t : Toggles) : String :=
  (mountedHandler t).fmt.getD ""

/-- Number of positions of `l` at which the pattern `pat` occurs. -/
def countOccurAux (pat : List Char) : List Char → Nat
  | [] => 0
  | c :: rest => (if List.isPrefixOf pat (c :: rest) then 1 else 0) + countOccurAux pat rest

/-- Number of occurrences of a non-empty pattern in a string. -/
def countOccur (s pat : String) : Nat :=
  countOccurAux pat.data s.data

/-! ## Rendering (`logging.Formatter` applied to the assembled format) -/

/-- Left justification to width `w`, the effect of a `%(key)-Ns` directive
in `logging.Formatter` (Python `%`-formatting). -/
def ljust (s : String) (w : Nat) : String :=
  s ++ String.mk (List.replicate (w - s.data.length) ' ')

/-- The line produced by substituting the record's attributes into the
format string assembled by `on_mount`: `%(asctime)s` becomes the formatted
time, each `%(key)-Ns` directive the left-justified attribute value, and
`%(message)s` the message. The fragments appear in the same order as in
`mountedHandler`. -/
def renderLine (t : Toggles) (r : LogRecord) : String :=
  "│ " ++ r.asctime
    ++ (if t.logger_show_time then "│ " ++ r.asctime ++ " " else "")
    ++ (if t.logger_show_tid then "│ [grey53]" ++ ljust (Nat.repr r.posixTID) 8 ++ "[/] " else "")
    ++ (if t.logger_show_name then "│ [grey53]" ++ ljust r.name 16 ++ "[/] " else "")
    ++ (if t.logger_show_funcname then "│ [grey53]" ++ ljust r.funcName 32 ++ "[/] " else "")
    ++ (if t.logger_show_callstack then "│ [grey53]" ++ ljust r.callstack 32 ++ "[/] " else "")
    ++ ("│ [bold white]" ++ r.msg ++ "[/]")

/-! ## Filters (`trickkiste.logging_helper`) -/

/-- Ambient data the filters read: the current call stack's textual summary
and the current thread's identifier. -/
structure Ctx where
  stack : String
  tid : Nat
deriving DecidableEq, Repr

/-- Last dot-separated component of a logger name (accumulator holds the
current component reversed). -/
def lastDotComponent (acc : List Char) : List Char → List Char
  | [] => acc.reverse
  | c :: rest => if c = '.' then lastDotComponent [] rest else lastDotComponent (c :: acc) rest

/-- Modelled from the spec: `logger_name_filter` from
`trickkiste.logging_helper` (not under `src/`) "shortens or normalizes the
logger name for display"; modelled as keeping the last dot-separated
component. -/
def logger_name_normalize (s : String) : String :=
  String.mk (lastDotComponent [] s.data)

/-- Modelled from the spec: the four record filters of
`trickkiste.logging_helper` (not under `src/`): `callstack_filter`
"computes and attaches a textual call-stack summary", `thread_id_filter`
"attaches the current thread's identifier", `markup_escape_filter` is the
"defense-in-depth re-escape" of the message, and `logger_name_filter`
"shortens or normalizes the logger name for display". Each returns the
(possibly mutated) record; all records pass. -/
def applyFilter (ctx : Ctx) (r : LogRecord) : FilterId → LogRecord
  | .callstack_filter => { r with callstack := ctx.stack }
  | .thread_id_filter => { r with posixTID := ctx.tid }
  | .markup_escape_filter => { r with msg := markup_escape r.msg }
  | .logger_name_filter => { r with name := logger_name_normalize r.name }

/-- The record the formatter sees: `logging.Handler.handle` applies the
installed filters in installation order, then `RichLogHandler.emit`
performs its escaping mutation before formatting. -/
def processedRecord (t : Toggles) (ctx : Ctx) (r : LogRecord) : LogRecord :=
  emitTransform (((mountedHandler t).filters).foldl (applyFilter ctx) r)

/-- The rendered, styled line the adapter appends to the scrollback for a
record that passes the severity threshold. -/
def emitLine (t : Toggles) (ctx : Ctx) (r : LogRecord) : String :=
  renderLine t (processedRecord t ctx r)

/-! ## Severity thresholds (`set_log_levels`) -/

/-- Modelled from the spec: `set_log_levels` from
`trickkiste.logging_helper` (not under `src/`) "sets the minimum severity
level shown in the log pane (with a separate default threshold applied to
all other loggers)"; the configuration is a list of per-logger overrides
plus the `others_level` default, with the most specific override winning. -/
structure LogConfig where
  levels : List (String × Nat)
  others_level : Nat
deriving DecidableEq, Repr

/-- The configured threshold for a logger name: its override if present,
otherwise `others_level`. -/
def threshold (cfg : LogConfig) (nm : String) : Nat :=
  match cfg.levels.find? (fun p => p.fst == nm) with
  | some p => p.snd
  | none => cfg.others_level

/-- A record is shown when its severity reaches the configured threshold
for its logger. -/
def passes (cfg : LogConfig) (r : LogRecord) : Bool :=
  threshold cfg r.name ≤ r.levelno

/-- Handling one record: if it passes the threshold, the adapter appends
exactly one rendered line to the scrollback, otherwise nothing. -/
def handleRecord (t : Toggles) (ctx : Ctx) (cfg : LogConfig)
    (sb : List String) (r : LogRecord) : List String :=
  if passes cfg r then sb ++ [emitLine t ctx r] else sb

/-- Handling a sequence of records in emission order. -/
def processRecords (t : Toggles) (ctx : Ctx) (cfg : LogConfig)
    (sb : List String) (rs : List LogRecord) : List String :=
  rs.foldl (handleRecord t ctx cfg) sb

/-! ## `LockingRichLog` scroll state -/

/-- The scroll state of the `LockingRichLog` widget: vertical offset,
maximal vertical offset (end of content), and the `auto_scroll` flag. -/
structure ScrollView where
  scroll_y : Nat
  max_scroll_y : Nat
  auto_scroll : Bool
deriving DecidableEq, Repr

/-- `RichLog.is_vertical_scroll_end`: the viewport's vertical position is
at the end of content. -/
def is_vertical_scroll_end (s : ScrollView) : Bool :=
  s.scroll_y == s.max_scroll_y

/-- A `ScrollTo` event: the framework moves the viewport to the requested
offset (clamped to the end of content), then `LockingRichLog.on_scroll_to`
runs `self.auto_scroll = self.is_vertical_scroll_end`. -/
def on_scroll_to (s : ScrollView) (target : Nat) : ScrollView :=
  let moved : ScrollView := { s with scroll_y := min target s.max_scroll_y }
  { moved with auto_scroll := is_vertical_scroll_end moved }

/-! ## `TuiBaseApp.execute` lifecycle -/

/-- Observable events of the blocking run: steps of the UI event loop, the
loop running to completion, and the cleanup hook being invoked. -/
inductive AppEvent where
  | loop_step (n : Nat)
  | loop_completed
  | cleanup_called
deriving DecidableEq, Repr

/-- `TuiBaseApp.execute`: `asyncio.run(self.run_async())` drives the UI
event loop to completion (the loop's events followed by its completion),
then `if hasattr(self, "cleanup"): self.cleanup()` invokes the cleanup
hook exactly when the subclass defines one. -/
def execute (hasCleanup : Bool) (loopTrace : List AppEvent) : List AppEvent :=
  (loopTrace ++ [AppEvent.loop_completed])
    ++ (if hasCleanup then [AppEvent.cleanup_called] else [])

/-! ## Helper lemmas -/

set_option maxRecDepth 40000

/-- The `emit` argument transformation maps escaping over the argument
tuple; `None` stays `None` and the empty tuple stays empty. -/
theorem escapeArgs_map (o : Option (List Arg)) :
    escapeArgs o = o.map (List.map escapeArg) := by
  cases o with
  | none => rfl
  | some l => cases l <;> rfl

/-- Every opening bracket produced by `escChars` is immediately preceded by
its escaping backslash, whatever the scanner's initial flag. -/
theorem noBareBracketAux_escChars (l : List Char) :
    ∀ b, noBareBracketAux b (escChars l) = true := by
  induction l with
  | nil => intro b; rfl
  | cons c rest ih =>
    intro b
    by_cases hc : c = '['
    · subst hc; simp [escChars, noBareBracketAux, ih]
    · by_cases hb : c = '\\' <;> simp [escChars, noBareBracketAux, hc, hb, ih]

/-! ## Claim theorems -/

/-- Claim C1: every record whose severity reaches the configured threshold
for its logger contributes exactly one rendered line to the scrollback,
lines appear in emission order, and records at or above threshold are never
dropped, reordered or batched: handling a record sequence appends precisely
the rendered lines of the passing records, in order. -/
theorem C1_threshold_emission_order (t : Toggles) (ctx : Ctx) (cfg : LogConfig)
    (sb : List String) (rs : List LogRecord) :
    processRecords t ctx cfg sb rs = sb ++ (rs.filter (passes cfg)).map (emitLine t ctx) := by
  induction rs generalizing sb with
  | nil => simp [processRecords]
  | cons r rs ih =>
    simp only [processRecords, List.foldl_cons]
    rw [show List.foldl (handleRecord t ctx cfg) (handleRecord t ctx cfg sb r) rs
          = processRecords t ctx cfg (handleRecord t ctx cfg sb r) rs from rfl, ih]
    by_cases h : passes cfg r
    · simp [handleRecord, h, List.filter_cons]
    · simp [handleRecord, h, List.filter_cons]

/-- Claim C2, counterexample: with every toggle disabled the assembled
format string still contains the timestamp directive once — the disabled
time field's text is not omitted from the format string (the prefix
`"│ %(asctime)s"` is unconditional in `on_mount`). -/
theorem C2_counterexample :
    (Toggles.mk false false false false false).logger_show_time = false
    ∧ countOccur (formatString (Toggles.mk false false false false false)) "%(asctime)s" = 1 :=
  ⟨rfl, by decide⟩

/-- Claim C2, amended: for the name, callstack, function-name and thread-id
toggles, the corresponding directive occurs in the assembled format string
exactly when the toggle is enabled and never otherwise, independently of
the other toggles; the timestamp directive is always present once and the
time toggle adds a second copy; the message directive is always present
once. -/
theorem C2_toggle_field_presence : ∀ ti na cs fn td : Bool,
    countOccur (formatString ⟨ti, na, cs, fn, td⟩) "%(asctime)s" = (if ti then 2 else 1)
    ∧ countOccur (formatString ⟨ti, na, cs, fn, td⟩) "%(name)-16s" = (if na then 1 else 0)
    ∧ countOccur (formatString ⟨ti, na, cs, fn, td⟩) "%(callstack)-32s" = (if cs then 1 else 0)
    ∧ countOccur (formatString ⟨ti, na, cs, fn, td⟩) "%(funcName)-32s" = (if fn then 1 else 0)
    ∧ countOccur (formatString ⟨ti, na, cs, fn, td⟩) "%(posixTID)-8s" = (if td then 1 else 0)
    ∧ countOccur (formatString ⟨ti, na, cs, fn, td⟩) "%(message)s" = 1 := by decide

/-- Claim C3: `emit` escapes the message and every string-typed positional
argument and passes non-string arguments through unchanged; an escaped
string has no bare opening bracket, so user-supplied text cannot open a
styling directive; and the rendered line contains the escaped message. -/
theorem C3_markup_escaping (t : Toggles) (r : LogRecord) :
    (emitTransform r).msg = markup_escape r.msg
    ∧ (emitTransform r).args = r.args.map (List.map escapeArg)
    ∧ (∀ s, escapeArg (Arg.str s) = Arg.str (markup_escape s))
    ∧ (∀ v, escapeArg (Arg.other v) = Arg.other v)
    ∧ (∀ s, noBareBracket (markup_escape s).data = true)
    ∧ (∃ pp qq, renderLine t (emitTransform r) = pp ++ (markup_escape r.msg ++ qq)) := by
  refine ⟨rfl, escapeArgs_map r.args, fun s => rfl, fun v => rfl,
    fun s => noBareBracketAux_escChars s.data false, ?_⟩
  refine ⟨"│ " ++ r.asctime
    ++ (if t.logger_show_time then "│ " ++ r.asctime ++ " " else "")
    ++ (if t.logger_show_tid then "│ [grey53]" ++ ljust (Nat.repr r.posixTID) 8 ++ "[/] " else "")
    ++ (if t.logger_show_name then "│ [grey53]" ++ ljust r.name 16 ++ "[/] " else "")
    ++ (if t.logger_show_funcname then "│ [grey53]" ++ ljust r.funcName 32 ++ "[/] " else "")
    ++ (if t.logger_show_callstack then "│ [grey53]" ++ ljust r.callstack 32 ++ "[/] " else "")
    ++ "│ [bold white]", "[/]", ?_⟩
  simp [renderLine, emitTransform, String.append_assoc]

/-- Claim C4, counterexample: handling a record through the adapter does
not leave its fields unchanged — `emit` mutates the record in place, so a
record whose message contains a bracket differs from its handled form. -/
theorem C4_counterexample :
    emitTransform ⟨"app", 20, "[red]x", none, "f", "", 0, "t"⟩
      ≠ ⟨"app", 20, "[red]x", none, "f", "", 0, "t"⟩ := by decide

/-- Claim C4, amended: `emit` replaces the record's message and positional
arguments by their escaped forms in place; every other field of the record
is left unchanged by the escaping step. -/
theorem C4_fields_preserved (r : LogRecord) :
    (emitTransform r).name = r.name
    ∧ (emitTransform r).levelno = r.levelno
    ∧ (emitTransform r).funcName = r.funcName
    ∧ (emitTransform r).callstack = r.callstack
    ∧ (emitTransform r).posixTID = r.posixTID
    ∧ (emitTransform r).asctime = r.asctime
    ∧ (emitTransform r).msg = markup_escape r.msg
    ∧ (emitTransform r).args = escapeArgs r.args :=
  ⟨rfl, rfl, rfl, rfl, rfl, rfl, rfl, rfl⟩

/-- Claim C5: after any scroll event the auto-scroll flag equals the
end-of-content test, the transition is idempotent, and the equivalence
holds after any non-empty sequence of scroll events. -/
theorem C5_auto_scroll_invariant (s : ScrollView) (ts : List Nat) (h : ts ≠ []) :
    (∀ target, (on_scroll_to s target).auto_scroll
        = is_vertical_scroll_end (on_scroll_to s target))
    ∧ (∀ target, on_scroll_to (on_scroll_to s target) target = on_scroll_to s target)
    ∧ (ts.foldl on_scroll_to s).auto_scroll
        = is_vertical_scroll_end (ts.foldl on_scroll_to s) := by
  refine ⟨fun target => by simp [on_scroll_to, is_vertical_scroll_end],
    fun target => by simp [on_scroll_to, is_vertical_scroll_end], ?_⟩
  induction ts generalizing s with
  | nil => exact absurd rfl h
  | cons a ts ih =>
    cases ts with
    | nil => simp [on_scroll_to, is_vertical_scroll_end]
    | cons b ts2 => exact ih (on_scroll_to s a) (by simp)

/-- Witness for claim C5 at a concrete state and event sequence. -/
theorem C5_auto_scroll_invariant_witness : ([3] : List Nat) ≠ []
    ∧ ((([3] : List Nat).foldl on_scroll_to ⟨0, 5, true⟩).auto_scroll
        = is_vertical_scroll_end (([3] : List Nat).foldl on_scroll_to ⟨0, 5, true⟩)) :=
  ⟨by decide, (C5_auto_scroll_invariant ⟨0, 5, true⟩ [3] (by decide)).2.2⟩

/-- Claim C6: with all display toggles false, the assembled format string
holds only the timestamp and message directives (no name, callstack,
function-name or thread-id field), and handling a record whose message is
`"hello"` renders exactly the timestamp followed by the styled literal
message. -/
theorem C6_all_toggles_false_hello (r : LogRecord) (ctx : Ctx) (h : r.msg = "hello") :
    formatString ⟨false, false, false, false, false⟩
      = "│ %(asctime)s│ [bold white]%(message)s[/]"
    ∧ countOccur (formatString ⟨false, false, false, false, false⟩) "%(name)" = 0
    ∧ countOccur (formatString ⟨false, false, false, false, false⟩) "%(callstack)" = 0
    ∧ countOccur (formatString ⟨false, false, false, false, false⟩) "%(funcName)" = 0
    ∧ countOccur (formatString ⟨false, false, false, false, false⟩) "%(posixTID)" = 0
    ∧ emitLine ⟨false, false, false, false, false⟩ ctx r
        = "│ " ++ r.asctime ++ "│ [bold white]hello[/]" := by
  have hesc : markup_escape (markup_escape "hello") = "hello" := by decide
  refine ⟨by decide, by decide, by decide, by decide, by decide, ?_⟩
  simp [emitLine, processedRecord, mountedHandler, addFilter, setFormatter,
    RichLogHandler.init, applyFilter, emitTransform, renderLine, h, hesc]

/-- Witness for claim C6 at a concrete record and context. -/
theorem C6_all_toggles_false_hello_witness :
    (LogRecord.mk "trickkiste.base_app" 20 "hello" none "main" "" 0 "2024-01-01 00:00:00").msg
      = "hello"
    ∧ emitLine ⟨false, false, false, false, false⟩ ⟨"stack", 7⟩
        (LogRecord.mk "trickkiste.base_app" 20 "hello" none "main" "" 0 "2024-01-01 00:00:00")
      = "│ " ++ (LogRecord.mk "trickkiste.base_app" 20 "hello" none "main" ""
          0 "2024-01-01 00:00:00").asctime ++ "│ [bold white]hello[/]" :=
  ⟨rfl, (C6_all_toggles_false_hello
    (LogRecord.mk "trickkiste.base_app" 20 "hello" none "main" "" 0 "2024-01-01 00:00:00")
    ⟨"stack", 7⟩ rfl).2.2.2.2.2⟩

/-- Claim C7: for every toggle assignment the installed filter chain is
exactly: the call-stack filter iff call-stack display is enabled, then the
thread-id filter iff thread-id display is enabled, then always the
markup-escaping filter and the logger-name filter; and the record the
formatter sees carries the effects of those filters applied in that
order. -/
theorem C7_filter_chain (t : Toggles) (ctx : Ctx) (r : LogRecord) :
    (mountedHandler t).filters
      = (if t.logger_show_callstack then [FilterId.callstack_filter] else [])
        ++ (if t.logger_show_tid then [FilterId.thread_id_filter] else [])
        ++ [FilterId.markup_escape_filter, FilterId.logger_name_filter]
    ∧ (processedRecord t ctx r).callstack
        = (if t.logger_show_callstack then ctx.stack else r.callstack)
    ∧ (processedRecord t ctx r).posixTID
        = (if t.logger_show_tid then ctx.tid else r.posixTID)
    ∧ (processedRecord t ctx r).name = logger_name_normalize r.name
    ∧ (processedRecord t ctx r).msg = markup_escape (markup_escape r.msg) := by
  rcases t with ⟨ti, na, cs, fn, td⟩
  cases cs <;> cases td <;>
    simp [mountedHandler, addFilter, setFormatter, RichLogHandler.init,
      processedRecord, applyFilter, emitTransform]

/-- Claim C8: after mount the root logger's handler list is exactly the one
freshly built adapter targeting the application's scrollback widget,
whatever handlers were installed before — the list is replaced outright,
not appended to. -/
theorem C8_sole_handler (t : Toggles) (root : RootLogger) :
    (on_mount t root).handlers = [mountedHandler t]
    ∧ (on_mount t root).handlers.length = 1
    ∧ (∀ other : RootLogger, (on_mount t other).handlers = (on_mount t root).handlers)
    ∧ (mountedHandler t).widget = appLogWidget := by
  refine ⟨rfl, rfl, fun other => rfl, ?_⟩
  rcases t with ⟨ti, na, cs, fn, td⟩
  cases cs <;> cases td <;> rfl

/-- Claim C9: the blocking run never invokes the cleanup hook before the UI
event loop has completed — the trace up to loop completion is cleanup-free
— and after the loop exits the hook is invoked exactly when the subclass
defines one. -/
theorem C9_cleanup_after_loop (hasCleanup : Bool) (tr : List AppEvent)
    (h : AppEvent.cleanup_called ∉ tr) :
    (execute hasCleanup tr).count AppEvent.cleanup_called = (if hasCleanup then 1 else 0)
    ∧ ∃ done rest, execute hasCleanup tr = done ++ rest
        ∧ done = tr ++ [AppEvent.loop_completed]
        ∧ AppEvent.cleanup_called ∉ done
        ∧ rest = (if hasCleanup then [AppEvent.cleanup_called] else []) := by
  constructor
  · cases hasCleanup <;>
      simp [execute, List.count_append, List.count_eq_zero.mpr h, List.count_singleton,
        List.count_cons, List.count_nil]
  · exact ⟨tr ++ [AppEvent.loop_completed],
      (if hasCleanup then [AppEvent.cleanup_called] else []), rfl, rfl, by simp [h], rfl⟩

/-- Witness for claim C9 at a concrete loop trace with a cleanup hook. -/
theorem C9_cleanup_after_loop_witness :
    (AppEvent.cleanup_called ∉ [AppEvent.loop_step 0])
    ∧ (execute true [AppEvent.loop_step 0]).count AppEvent.cleanup_called
        = (if true then 1 else 0) :=
  ⟨by decide, (C9_cleanup_after_loop true [AppEvent.loop_step 0] (by decide)).1⟩

/-- Claim C10: when the record's positional-argument field is falsy
(`None` or the empty tuple), the escaping step leaves it exactly as it
was; the step is total on such records. -/
theorem C10_falsy_args_untouched (o : Option (List Arg))
    (h : o = none ∨ o = some []) : escapeArgs o = o := by
  rcases h with h | h <;> subst h <;> rfl

/-- Witness for claim C10 at the absent-arguments value. -/
theorem C10_falsy_args_untouched_witness :
    ((none : Option (List Arg)) = none ∨ (none : Option (List Arg)) = some [])
    ∧ escapeArgs (none : Option (List Arg)) = none :=
  ⟨Or.inl rfl, C10_falsy_args_untouched none (Or.inl rfl)⟩

end Trickkiste
